import Mathlib

/-!
Shallow embedding of the backend of `my_knowledge_base`
(`backend/app/main.py` and `backend/app/models.py`) and proofs about its
startup readiness gate, its two HTTP handlers and its declared schema.

Conventions of the embedding:
* a SQLAlchemy `Column(...)` declaration is a `SqlColumn` record of the
  keyword flags that appear in `models.py` (with the SQLAlchemy defaults
  filled in where a flag is not written);
* the outcome of one iteration of the startup retry loop is a
  `StepOutcome`: either the liveness probe `SELECT 1` raises, or the
  probe succeeds and `Base.metadata.create_all` raises, or both succeed;
  exception classes are collapsed to the only distinction the code makes,
  `OperationalError` versus everything else (`ExcClass`);
* the persistent store is a set of table names (`List String`); the log
  stream is abstracted to counters of the log lines the claims mention
  (retry warnings, sleep time, exhaustion errors).
-/

/-- Classification of a raised exception, exactly as coarse as the code
distinguishes: `sqlalchemy.exc.OperationalError` versus any other class. -/
inductive ExcClass where
  | operational
  | other
deriving DecidableEq

/-- Outcome of the body of one iteration of the `while retries < max_retries`
loop in `on_startup`: the probe `connection.execute(text("SELECT 1"))` either
raises or succeeds, and after a successful probe
`Base.metadata.create_all(bind=engine)` either raises or succeeds. -/
inductive StepOutcome where
  | success
  | probeFail (cls : ExcClass)
  | createFail (cls : ExcClass)
deriving DecidableEq

/-- Point in the loop body at which an exception was raised. -/
inductive Phase where
  | probe
  | createAll
deriving DecidableEq

/-- How the retry loop in `on_startup` ended: `broke` for the `break`
statement after successful probe and schema creation, `exhausted` for the
`while` condition `retries < max_retries` becoming false, `raised` for an
exception escaping the `try/except OperationalError` block. -/
inductive ExitMode where
  | broke
  | exhausted
  | raised (phase : Phase) (cls : ExcClass)
deriving DecidableEq

/-- Embedding of a `Column(...)` declaration of `models.py`: the keyword
flags `primary_key`, `unique`, `index`, `nullable`. -/
structure SqlColumn where
  name : String
  primary_key : Bool
  unique : Bool
  index : Bool
  nullable : Bool
deriving DecidableEq

/-- Embedding of a declarative model class of `models.py`: its
`__tablename__` and its column declarations. -/
structure SqlTable where
  tablename : String
  columns : List SqlColumn
deriving DecidableEq

/-- Embedding of class `User` of `models.py`: table `users` with
`id = Column(Integer, primary_key=True, index=True)`,
`username = Column(String, unique=True, index=True, nullable=False)`,
`hashed_password = Column(String, nullable=False)`. A primary key column is
non nullable by SQLAlchemy default. -/
def User : SqlTable :=
  ⟨"users",
    [⟨"id", true, false, true, false⟩,
     ⟨"username", false, true, true, false⟩,
     ⟨"hashed_password", false, false, false, false⟩]⟩

/-- Embedding of class `KnowledgeBase` of `models.py`: table
`knowledge_bases` with
`id = Column(Integer, primary_key=True, index=True)`,
`name = Column(String, index=True, nullable=False)`,
`description = Column(String, nullable=True)`,
`ragflow_kb_id = Column(String, unique=True, nullable=False)`. -/
def KnowledgeBase : SqlTable :=
  ⟨"knowledge_bases",
    [⟨"id", true, false, true, false⟩,
     ⟨"name", false, false, true, false⟩,
     ⟨"description", false, false, false, true⟩,
     ⟨"ragflow_kb_id", false, true, false, false⟩]⟩

/-- Tables registered on the `Base.metadata` defined in `models.py`: the two
model classes `User` and `KnowledgeBase`. -/
def models_tables : List SqlTable := [User, KnowledgeBase]

/-- Source files of the repository. The tree contains exactly
`backend/app/main.py` and `backend/app/models.py`; in particular there is no
`backend/app/database.py`. -/
def repo_source_files : List String :=
  ["backend/app/main.py", "backend/app/models.py"]

/-- Whether the module `backend/app/database.py` exists in the repository;
`models.py` line 3 runs `from .database import Base`, which raises
`ModuleNotFoundError` (a subclass of `ImportError`) when it does not. -/
def database_module_present : Bool :=
  repo_source_files.contains "backend/app/database.py"

/-- Whether `from .models import Base` in `main.py` succeeds: importing
`.models` executes `from .database import Base`, so the import succeeds
exactly when the `database` module is present. -/
def models_import_ok : Bool := database_module_present

/-- Embedding of the `try: from .models import Base / except ImportError`
block of `main.py` lines 32 to 36: on success `Base` carries the metadata of
`models.py`; on `ImportError` a placeholder `Base = declarative_base()` with
empty metadata is bound instead. -/
def Base_tables (import_ok : Bool) : List SqlTable :=
  if import_ok then models_tables else []

/-- Number of warnings logged by the import block of `main.py` lines 32 to
36: one (`"models.py not found, creating a placeholder Base..."`) exactly
when the import fails. -/
def Base_import_warnings (import_ok : Bool) : Nat :=
  if import_ok then 0 else 1

/-- Embedding of `Base.metadata.create_all(bind=engine)`: create every
declared table whose name is not already present in the store, leaving
already present tables untouched. -/
def create_all (declared : List SqlTable) (db : List String) : List String :=
  declared.foldl
    (fun acc t => if acc.contains t.tablename then acc else acc ++ [t.tablename]) db

/-- Value of the local `max_retries` in `on_startup` (`main.py` line 57). -/
def max_retries : Nat := 30

/-- State at the end of the retry loop of `on_startup`: how the loop exited,
the final value of the `retries` counter, the number of loop iterations
entered (each performing one probe attempt), the number of retry warnings
logged by the `except OperationalError` handler, the total time spent in
`time.sleep(2)` calls, the number of invocations of
`Base.metadata.create_all`, and the resulting store contents. -/
structure LoopState where
  exitMode : ExitMode
  retries : Nat
  attempts : Nat
  warnings : Nat
  sleepTime : Nat
  createAllCalls : Nat
  db : List String
deriving DecidableEq

/-- Embedding of the `while retries < max_retries` loop of `on_startup`
(`main.py` lines 61 to 86). The first `Nat` argument is fuel kept equal to
`max_retries - retries` by every call, so that the recursion is structural;
when the fuel is `0` the `while` condition `retries < max_retries` is false
and the loop exits normally. Each entered iteration probes once
(`attempts + 1`); on `OperationalError` (from the probe or from
`create_all`, both inside the `try`) the handler increments `retries`, logs
one warning and sleeps 2 seconds, and the loop is re-entered; on success the
tables are created and `break` runs; any other exception class escapes the
loop. -/
def loopAux (bt : List SqlTable) (step : Nat → StepOutcome) :
    Nat → Nat → Nat → Nat → Nat → Nat → List String → LoopState
  | 0, retries, a, w, st, c, db => ⟨.exhausted, retries, a, w, st, c, db⟩
  | fuel + 1, retries, a, w, st, c, db =>
    if retries < max_retries then
      match step retries with
      | .success =>
          ⟨.broke, retries, a + 1, w, st, c + 1, create_all bt db⟩
      | .probeFail .operational =>
          loopAux bt step fuel (retries + 1) (a + 1) (w + 1) (st + 2) c db
      | .probeFail .other =>
          ⟨.raised .probe .other, retries, a + 1, w, st, c, db⟩
      | .createFail .operational =>
          loopAux bt step fuel (retries + 1) (a + 1) (w + 1) (st + 2) (c + 1) db
      | .createFail .other =>
          ⟨.raised .createAll .other, retries, a + 1, w, st, c + 1, db⟩
    else ⟨.exhausted, retries, a, w, st, c, db⟩

/-- Result of the whole `on_startup` handler: the loop state, the number of
exhaustion error log lines (`"Failed to connect to the database after
maximum retries..."`), whether the final
`logger.info("Application startup complete.")` ran, and whether an exception
propagated out of the handler. -/
structure StartupResult where
  loop : LoopState
  exhaustionErrors : Nat
  startupComplete : Bool
  propagated : Bool
deriving DecidableEq

/-- Embedding of the code after the loop in `on_startup` (`main.py` lines 88
to 91): when an exception escaped the loop it propagates out of the handler
and neither the `retries >= max_retries` check nor the completion log runs;
otherwise the exhaustion error is logged exactly when `retries >=
max_retries`, and startup completes. -/
def startupFinish (s : LoopState) : StartupResult :=
  match s.exitMode with
  | .raised _ _ => ⟨s, 0, false, true⟩
  | _ => ⟨s, if max_retries ≤ s.retries then 1 else 0, true, false⟩

/-- Embedding of the whole `on_startup` handler (`main.py` lines 48 to 91),
parametrised by the metadata tables `bt` bound to `Base`, the behaviour
`step` of the store on each attempt, and the initial store contents `db0`.
`retries` starts at `0` and the loop fuel at `max_retries - 0`. -/
def on_startup (bt : List SqlTable) (step : Nat → StepOutcome)
    (db0 : List String) : StartupResult :=
  startupFinish (loopAux bt step max_retries 0 0 0 0 0 db0)

/-- Embedding of the `read_root` handler for `GET /` (`main.py` lines 95 to
100). The parameter is the behaviour of the store at request time; the
handler body references no store state and returns the literal payload. -/
def read_root (_store : Option ExcClass) : List (String × String) :=
  [("message", "Welcome to the Knowledge Base API!"), ("status", "running")]

/-- Embedding of the `health_check` handler for `GET /health` (`main.py`
lines 102 to 113). The parameter is the outcome of
`db.execute(text("SELECT 1"))` on a fresh session: `none` when it succeeds,
`some cls` when it raises an exception of class `cls`. The
`except Exception` clause catches every class and returns the unhealthy
payload. -/
def health_check (q : Option ExcClass) : List (String × String) :=
  match q with
  | none => [("status", "ok"), ("database_connection", "healthy")]
  | some _ => [("status", "error"), ("database_connection", "unhealthy")]

/-- Modelled from the spec: the module `backend/app/database.py` is absent
from the source tree, while `models.py` line 3 imports the declarative
`Base` from it. Sections 3 and 9 of the spec treat that `Base` as the schema
registry the gate provisions, so a present `database.py` makes the import
chain succeed and `Base.metadata` hold exactly the two model classes of
`models.py`. -/
def spec_database_Base_tables : List SqlTable := models_tables

/-- Row of a table: an assignment of an optional value to column names. -/
abbrev Row := List (String × Option String)

/-- Value a row assigns to a column; `none` for SQL NULL or an absent
column. -/
def rowVal (r : Row) (c : String) : Option String :=
  match r.find? (fun p => p.1 == c) with
  | some p => p.2
  | none => none

/-- Modelled from the spec: enforcement of the declared uniqueness
constraints is performed by the persistent store, which is outside this
repository; per sections 3 and 8 of the spec a column declared unique (or a
primary key) rejects a second row carrying a value already present. This
predicate detects such a conflict between an incoming row and the existing
rows of a table. -/
def uniqueViolation (t : SqlTable) (rows : List Row) (r : Row) : Bool :=
  t.columns.any fun col =>
    (col.unique || col.primary_key) &&
      rows.any fun r0 =>
        (rowVal r col.name).isSome && (rowVal r0 col.name == rowVal r col.name)

/-- Modelled from the spec: an insert against the store succeeds and appends
the row unless it violates a declared uniqueness constraint, in which case
it is rejected. -/
def insertRow (t : SqlTable) (rows : List Row) (r : Row) : Option (List Row) :=
  if uniqueViolation t rows r then none else some (rows ++ [r])

/-! ## Helper lemmas about the embedded definitions -/

lemma startupFinish_loop (s : LoopState) : (startupFinish s).loop = s := by
  obtain ⟨e, r, a, w, st, c, db⟩ := s
  cases e <;> rfl

lemma mem_create_all_of_mem (declared : List SqlTable) :
    ∀ (db : List String) (x : String), x ∈ db → x ∈ create_all declared db := by
  induction declared with
  | nil => intro db x h; simpa [create_all] using h
  | cons d ds ih =>
    intro db x h
    unfold create_all at *
    simp only [List.foldl_cons]
    apply ih
    split
    · exact h
    · exact List.mem_append_left _ h

lemma mem_create_all_of_declared (declared : List SqlTable) :
    ∀ (db : List String) (t : SqlTable), t ∈ declared →
      t.tablename ∈ create_all declared db := by
  induction declared with
  | nil => intro db t h; simp at h
  | cons d ds ih =>
    intro db t h
    unfold create_all
    simp only [List.foldl_cons]
    rcases List.mem_cons.mp h with h | h
    · subst h
      apply mem_create_all_of_mem
      split
      · next hc => simpa using hc
      · exact List.mem_append_right _ (List.mem_singleton.mpr rfl)
    · exact ih _ t h

lemma loopAux_all_fail (bt : List SqlTable) (step : Nat → StepOutcome)
    (h : ∀ k, step k = .probeFail .operational) :
    ∀ (fuel retries a w st c : Nat) (db : List String),
      retries + fuel ≤ max_retries →
      loopAux bt step fuel retries a w st c db =
        ⟨.exhausted, retries + fuel, a + fuel, w + fuel, st + 2 * fuel, c, db⟩ := by
  intro fuel
  induction fuel with
  | zero => intro retries a w st c db _; simp [loopAux]
  | succ fuel ih =>
    intro retries a w st c db hb
    have hr : retries < max_retries := by omega
    have hrec := ih (retries + 1) (a + 1) (w + 1) (st + 2) c db (by omega)
    simp only [loopAux, if_pos hr, h retries, hrec, LoopState.mk.injEq,
      and_true, true_and]
    omega

lemma loopAux_succ_after (bt : List SqlTable) (step : Nat → StepOutcome) :
    ∀ (f fuel retries a w st c : Nat) (db : List String),
      f < fuel → retries + fuel ≤ max_retries →
      (∀ k, k < f → step (retries + k) = .probeFail .operational) →
      step (retries + f) = .success →
      loopAux bt step fuel retries a w st c db =
        ⟨.broke, retries + f, a + f + 1, w + f, st + 2 * f, c + 1,
          create_all bt db⟩ := by
  intro f
  induction f with
  | zero =>
    intro fuel retries a w st c db hf hb _ hs
    obtain ⟨fuel, rfl⟩ : ∃ n, fuel = n + 1 := ⟨fuel - 1, by omega⟩
    have hr : retries < max_retries := by omega
    simp only [Nat.add_zero] at hs
    simp only [loopAux, if_pos hr, hs, LoopState.mk.injEq, and_true, true_and]
    omega
  | succ f ih =>
    intro fuel retries a w st c db hf hb hfail hs
    obtain ⟨fuel, rfl⟩ : ∃ n, fuel = n + 1 := ⟨fuel - 1, by omega⟩
    have hr : retries < max_retries := by omega
    have h0 : step retries = .probeFail .operational := by
      have h1 := hfail 0 (by omega)
      simpa using h1
    have hrec := ih fuel (retries + 1) (a + 1) (w + 1) (st + 2) c db (by omega) (by omega)
      (fun k hk => by
        have h2 := hfail (k + 1) (by omega)
        rw [show retries + 1 + k = retries + (k + 1) by omega]
        exact h2)
      (by rw [show retries + 1 + f = retries + (f + 1) by omega]; exact hs)
    simp only [loopAux, if_pos hr, h0, hrec, LoopState.mk.injEq, and_true, true_and]
    omega

lemma loopAux_bounds (bt : List SqlTable) (step : Nat → StepOutcome) :
    ∀ (fuel retries a w st c : Nat) (db : List String),
      (loopAux bt step fuel retries a w st c db).attempts ≤ a + fuel ∧
      (loopAux bt step fuel retries a w st c db).warnings ≤ w + fuel ∧
      (loopAux bt step fuel retries a w st c db).sleepTime + 2 * w =
        st + 2 * (loopAux bt step fuel retries a w st c db).warnings := by
  intro fuel
  induction fuel with
  | zero => intro retries a w st c db; simp [loopAux]
  | succ fuel ih =>
    intro retries a w st c db
    by_cases hr : retries < max_retries
    · cases hstep : step retries with
      | success =>
        simp only [loopAux, if_pos hr, hstep, and_true, true_and]
        omega
      | probeFail cls =>
        cases cls with
        | operational =>
          have h3 := ih (retries + 1) (a + 1) (w + 1) (st + 2) c db
          simp only [loopAux, if_pos hr, hstep]
          omega
        | other =>
          simp only [loopAux, if_pos hr, hstep, and_true, true_and]
          omega
      | createFail cls =>
        cases cls with
        | operational =>
          have h3 := ih (retries + 1) (a + 1) (w + 1) (st + 2) (c + 1) db
          simp only [loopAux, if_pos hr, hstep]
          omega
        | other =>
          simp only [loopAux, if_pos hr, hstep, and_true, true_and]
          omega
    · simp only [loopAux, if_neg hr, and_true, true_and]
      omega

lemma loopAux_db_nil (step : Nat → StepOutcome) :
    ∀ (fuel retries a w st c : Nat) (db : List String),
      (loopAux [] step fuel retries a w st c db).db = db := by
  intro fuel
  induction fuel with
  | zero => intro retries a w st c db; simp [loopAux]
  | succ fuel ih =>
    intro retries a w st c db
    by_cases hr : retries < max_retries
    · cases hstep : step retries with
      | success => simp [loopAux, if_pos hr, hstep, create_all]
      | probeFail cls =>
        cases cls with
        | operational =>
          simp only [loopAux, if_pos hr, hstep]
          exact ih (retries + 1) (a + 1) (w + 1) (st + 2) c db
        | other => simp [loopAux, if_pos hr, hstep]
      | createFail cls =>
        cases cls with
        | operational =>
          simp only [loopAux, if_pos hr, hstep]
          exact ih (retries + 1) (a + 1) (w + 1) (st + 2) (c + 1) db
        | other => simp [loopAux, if_pos hr, hstep]
    · simp [loopAux, if_neg hr]

lemma insertRow_none_of_dup (t : SqlTable) (col : SqlColumn)
    (hcol : col ∈ t.columns) (hu : col.unique = true)
    (rows : List Row) (r r0 : Row) (v : String) (hr0 : r0 ∈ rows)
    (h0 : rowVal r0 col.name = some v) (h : rowVal r col.name = some v) :
    insertRow t rows r = none := by
  have hviol : uniqueViolation t rows r = true := by
    unfold uniqueViolation
    simp only [List.any_eq_true, Bool.and_eq_true, Bool.or_eq_true]
    exact ⟨col, hcol, Or.inl hu, r0, hr0, by rw [h]; rfl,
      by rw [h0, h]; exact beq_self_eq_true _⟩
  unfold insertRow
  rw [hviol]
  rfl

/-! ## Concrete store behaviours used by witnesses and counterexamples -/

/-- Store behaviour that raises `OperationalError` on the first two probe
attempts and then accepts the probe and the schema creation. -/
def stepReadyThird : Nat → StepOutcome := fun k =>
  match k with
  | 0 => .probeFail .operational
  | 1 => .probeFail .operational
  | _ + 2 => .success

/-- Store behaviour whose first attempt passes the probe but raises
`OperationalError` inside `Base.metadata.create_all`, and whose later
attempts succeed fully. -/
def stepCreateFailOnce : Nat → StepOutcome := fun k =>
  match k with
  | 0 => .createFail .operational
  | _ + 1 => .success

/-! ## Claim theorems -/

/-- C1: for a store that becomes reachable on probe attempt `N` with
`1 ≤ N ≤ 30` (the first `N - 1` probes raise `OperationalError`, the `N`-th
probe and the schema creation succeed), `on_startup` run with the
spec-modelled schema registry breaks out of the retry loop, completes
startup, logs exactly `N - 1` retry warnings, and both declared tables exist
in the store afterwards. -/
theorem startup_ready_within_N (step : Nat → StepOutcome) (N : Nat)
    (hN1 : 1 ≤ N) (hN30 : N ≤ 30)
    (hfail : ∀ k, k < N - 1 → step k = .probeFail .operational)
    (hs : step (N - 1) = .success) (db0 : List String) :
    (on_startup spec_database_Base_tables step db0).loop.exitMode = .broke ∧
    (on_startup spec_database_Base_tables step db0).startupComplete = true ∧
    (on_startup spec_database_Base_tables step db0).loop.warnings = N - 1 ∧
    "users" ∈ (on_startup spec_database_Base_tables step db0).loop.db ∧
    "knowledge_bases" ∈ (on_startup spec_database_Base_tables step db0).loop.db := by
  have hm : max_retries = 30 := rfl
  have hloop := loopAux_succ_after spec_database_Base_tables step (N - 1)
    max_retries 0 0 0 0 0 db0 (by omega) (by omega)
    (fun k hk => by have h2 := hfail k hk; simpa using h2)
    (by simpa using hs)
  unfold on_startup
  rw [hloop]
  refine ⟨rfl, rfl, by show (0 : Nat) + (N - 1) = N - 1; omega, ?_, ?_⟩
  · show "users" ∈ create_all spec_database_Base_tables db0
    exact mem_create_all_of_declared spec_database_Base_tables db0 User (by decide)
  · show "knowledge_bases" ∈ create_all spec_database_Base_tables db0
    exact mem_create_all_of_declared spec_database_Base_tables db0 KnowledgeBase (by decide)

/-- Witness for C1 at `N = 3`: two operational probe failures, success on
the third attempt, empty initial store. -/
theorem startup_ready_within_N_witness :
    (on_startup spec_database_Base_tables stepReadyThird []).loop.exitMode = .broke ∧
    (on_startup spec_database_Base_tables stepReadyThird []).startupComplete = true ∧
    (on_startup spec_database_Base_tables stepReadyThird []).loop.warnings = 3 - 1 ∧
    "users" ∈ (on_startup spec_database_Base_tables stepReadyThird []).loop.db ∧
    "knowledge_bases" ∈ (on_startup spec_database_Base_tables stepReadyThird []).loop.db :=
  startup_ready_within_N stepReadyThird 3 (by decide) (by decide)
    (fun k hk => by
      rcases k with _ | _ | n
      · rfl
      · rfl
      · exact absurd hk (by omega))
    rfl []

/-- C2: in the repository as given the `database` module is missing, so
importing `models` fails, `Base` is the empty placeholder, and schema
provisioning is a no-op: `on_startup` leaves the store exactly as it found
it for every store behaviour and initial contents; in particular, with the
store reachable on the first attempt and an initially empty store, neither
`users` nor `knowledge_bases` is ever created. -/
theorem schema_provisioning_is_noop :
    database_module_present = false ∧
    Base_tables models_import_ok = [] ∧
    (∀ (step : Nat → StepOutcome) (db0 : List String),
      (on_startup (Base_tables models_import_ok) step db0).loop.db = db0) ∧
    "users" ∉ (on_startup (Base_tables models_import_ok) (fun _ => .success) []).loop.db ∧
    "knowledge_bases" ∉
      (on_startup (Base_tables models_import_ok) (fun _ => .success) []).loop.db := by
  have hB : Base_tables models_import_ok = [] := by decide
  refine ⟨by decide, hB, ?_, by decide, by decide⟩
  intro step db0
  unfold on_startup
  rw [startupFinish_loop, hB]
  exact loopAux_db_nil step max_retries 0 0 0 0 0 db0

/-- C3 counterexample: a store whose first attempt passes the liveness probe
`SELECT 1` but raises `OperationalError` inside schema creation. Because
`Base.metadata.create_all` sits inside the `try/except OperationalError`
block, the gate does increment the attempt counter to 1, logs one retry
warning, sleeps the 2-second delay, and re-enters the retry loop (calling
`create_all` a second time), contradicting the claim that a
schema-provisioning failure after a successful probe is never retried. -/
theorem create_failure_retried_cex :
    stepCreateFailOnce 0 = .createFail .operational ∧
    (on_startup spec_database_Base_tables stepCreateFailOnce []).loop.retries = 1 ∧
    (on_startup spec_database_Base_tables stepCreateFailOnce []).loop.warnings = 1 ∧
    (on_startup spec_database_Base_tables stepCreateFailOnce []).loop.sleepTime = 2 ∧
    (on_startup spec_database_Base_tables stepCreateFailOnce []).loop.createAllCalls = 2 ∧
    (on_startup spec_database_Base_tables stepCreateFailOnce []).loop.exitMode = .broke := by
  decide

/-- C3 (amended): a schema-provisioning failure after a successful probe is
retried exactly when it is an `OperationalError`: such a failure is caught
by the same handler as probe failures (counter incremented, one warning,
2-second sleep, loop re-entered), while a provisioning failure of any other
class escapes the loop and propagates out of the startup handler without
incrementing the counter or sleeping. -/
theorem create_failure_class_dispatch (bt : List SqlTable)
    (step : Nat → StepOutcome) (fuel retries a w st c : Nat)
    (db : List String) (cls : ExcClass)
    (hr : retries < max_retries) (h : step retries = .createFail cls) :
    (loopAux bt step (fuel + 1) retries a w st c db =
      match cls with
      | .operational =>
          loopAux bt step fuel (retries + 1) (a + 1) (w + 1) (st + 2) (c + 1) db
      | .other => ⟨.raised .createAll .other, retries, a + 1, w, st, c + 1, db⟩) ∧
    (startupFinish ⟨.raised .createAll .other, retries, a + 1, w, st, c + 1, db⟩).propagated
      = true ∧
    (startupFinish ⟨.raised .createAll .other, retries, a + 1, w, st, c + 1, db⟩).startupComplete
      = false := by
  refine ⟨?_, rfl, rfl⟩
  cases cls
  · simp only [loopAux, if_pos hr, h]
  · simp only [loopAux, if_pos hr, h]

/-- Witness for the amended C3: the concrete behaviour whose first iteration
raises `OperationalError` during schema creation, at the top of the loop. -/
theorem create_failure_class_dispatch_witness :
    (loopAux spec_database_Base_tables stepCreateFailOnce (29 + 1) 0 0 0 0 0 [] =
      loopAux spec_database_Base_tables stepCreateFailOnce 29 (0 + 1) (0 + 1) (0 + 1)
        (0 + 2) (0 + 1) []) ∧
    (startupFinish ⟨.raised .createAll .other, 0, 0 + 1, 0, 0, 0 + 1, []⟩).propagated
      = true ∧
    (startupFinish ⟨.raised .createAll .other, 0, 0 + 1, 0, 0, 0 + 1, []⟩).startupComplete
      = false :=
  create_failure_class_dispatch spec_database_Base_tables stepCreateFailOnce
    29 0 0 0 0 0 [] .operational (by decide) rfl

/-- C4: for a store that never becomes reachable (every probe raises
`OperationalError`), the gate performs exactly 30 probe attempts logging 30
retry warnings, exits the loop by exhaustion, logs exactly one exhaustion
error, and startup still completes with no exception propagating. -/
theorem startup_exhaustion (bt : List SqlTable) (step : Nat → StepOutcome)
    (db0 : List String) (h : ∀ k, step k = .probeFail .operational) :
    (on_startup bt step db0).loop.exitMode = .exhausted ∧
    (on_startup bt step db0).loop.attempts = 30 ∧
    (on_startup bt step db0).loop.warnings = 30 ∧
    (on_startup bt step db0).exhaustionErrors = 1 ∧
    (on_startup bt step db0).startupComplete = true ∧
    (on_startup bt step db0).propagated = false := by
  have hloop := loopAux_all_fail bt step h max_retries 0 0 0 0 0 db0 (by omega)
  unfold on_startup
  rw [hloop]
  exact ⟨rfl, rfl, rfl, rfl, rfl, rfl⟩

/-- Witness for C4: the behaviour raising `OperationalError` on every
attempt, with the spec-modelled schema registry and an empty store. -/
theorem startup_exhaustion_witness :
    (on_startup spec_database_Base_tables (fun _ => .probeFail .operational) []).loop.exitMode
      = .exhausted ∧
    (on_startup spec_database_Base_tables (fun _ => .probeFail .operational) []).loop.attempts
      = 30 ∧
    (on_startup spec_database_Base_tables (fun _ => .probeFail .operational) []).loop.warnings
      = 30 ∧
    (on_startup spec_database_Base_tables (fun _ => .probeFail .operational) []).exhaustionErrors
      = 1 ∧
    (on_startup spec_database_Base_tables (fun _ => .probeFail .operational) []).startupComplete
      = true ∧
    (on_startup spec_database_Base_tables (fun _ => .probeFail .operational) []).propagated
      = false :=
  startup_exhaustion spec_database_Base_tables (fun _ => .probeFail .operational) []
    (fun _ => rfl)

/-- C5: during the startup probe exactly the operational error class is
retried. When an iteration of the loop is reached and its probe raises
`OperationalError`, the handler increments the counter, logs one warning,
sleeps 2 seconds and re-enters the loop; when the probe raises any other
class the loop is left with a raised exception, which `startupFinish` turns
into an unhandled propagation with startup never completing. -/
theorem probe_error_class_dispatch (bt : List SqlTable)
    (step : Nat → StepOutcome) (fuel retries a w st c : Nat)
    (db : List String) (cls : ExcClass)
    (hr : retries < max_retries) (h : step retries = .probeFail cls) :
    (loopAux bt step (fuel + 1) retries a w st c db =
      match cls with
      | .operational =>
          loopAux bt step fuel (retries + 1) (a + 1) (w + 1) (st + 2) c db
      | .other => ⟨.raised .probe .other, retries, a + 1, w, st, c, db⟩) ∧
    (startupFinish ⟨.raised .probe .other, retries, a + 1, w, st, c, db⟩).propagated
      = true ∧
    (startupFinish ⟨.raised .probe .other, retries, a + 1, w, st, c, db⟩).startupComplete
      = false := by
  refine ⟨?_, rfl, rfl⟩
  cases cls
  · simp only [loopAux, if_pos hr, h]
  · simp only [loopAux, if_pos hr, h]

/-- Witness for C5: a probe raising a non-operational exception on the
first iteration. -/
theorem probe_error_class_dispatch_witness :
    (loopAux [] (fun _ => .probeFail .other) (29 + 1) 0 0 0 0 0 [] =
      ⟨.raised .probe .other, 0, 0 + 1, 0, 0, 0, []⟩) ∧
    (startupFinish ⟨.raised .probe .other, 0, 0 + 1, 0, 0, 0, []⟩).propagated = true ∧
    (startupFinish ⟨.raised .probe .other, 0, 0 + 1, 0, 0, 0, []⟩).startupComplete = false :=
  probe_error_class_dispatch [] (fun _ => .probeFail .other) 29 0 0 0 0 0 []
    .other (by decide) rfl

/-- C6: when the import of the models module fails, the application logs one
warning, binds the empty placeholder `Base`, and proceeds: schema
provisioning against the placeholder is a total no-op (it returns the store
unchanged and raises nothing), and with a reachable store the startup
handler still completes normally. -/
theorem import_fallback (ok : Bool) (h : ok = false) :
    Base_import_warnings ok = 1 ∧
    Base_tables ok = [] ∧
    (∀ db : List String, create_all (Base_tables ok) db = db) ∧
    (∀ (step : Nat → StepOutcome) (db0 : List String),
      (on_startup (Base_tables ok) step db0).loop.db = db0) ∧
    (on_startup (Base_tables ok) (fun _ => .success) []).startupComplete = true ∧
    (on_startup (Base_tables ok) (fun _ => .success) []).propagated = false := by
  subst h
  refine ⟨rfl, rfl, fun db => rfl, ?_, rfl, rfl⟩
  intro step db0
  unfold on_startup
  rw [startupFinish_loop]
  show (loopAux [] step max_retries 0 0 0 0 0 db0).db = db0
  exact loopAux_db_nil step max_retries 0 0 0 0 0 db0

/-- Witness for C6 at the concrete failing import. -/
theorem import_fallback_witness :
    Base_import_warnings false = 1 ∧
    Base_tables false = [] ∧
    (on_startup (Base_tables false) (fun _ => .success) []).startupComplete = true :=
  ⟨(import_fallback false rfl).1, (import_fallback false rfl).2.1,
    (import_fallback false rfl).2.2.2.2.1⟩

/-- C7: the health check handler is a total function of the outcome of its
liveness query: it returns the healthy payload exactly when the query
succeeds, the unhealthy payload when the query raises an exception of any
class, and its result is always one of those two payloads, so nothing ever
propagates to the caller. -/
theorem health_check_never_raises :
    health_check none = [("status", "ok"), ("database_connection", "healthy")] ∧
    (∀ cls : ExcClass, health_check (some cls) =
      [("status", "error"), ("database_connection", "unhealthy")]) ∧
    (∀ q : Option ExcClass,
      health_check q = [("status", "ok"), ("database_connection", "healthy")] ∨
      health_check q = [("status", "error"), ("database_connection", "unhealthy")]) := by
  refine ⟨rfl, fun cls => rfl, ?_⟩
  intro q
  cases q
  · exact Or.inl rfl
  · exact Or.inr rfl

/-- C8: the startup retry loop terminates with at most 30 probe attempts,
its total blocking sleep is exactly 2 seconds per failed attempt, and the
total sleep is bounded by the cap times the fixed delay, 30 times 2. -/
theorem startup_loop_bounded (bt : List SqlTable) (step : Nat → StepOutcome)
    (db0 : List String) :
    (on_startup bt step db0).loop.attempts ≤ 30 ∧
    (on_startup bt step db0).loop.sleepTime =
      2 * (on_startup bt step db0).loop.warnings ∧
    (on_startup bt step db0).loop.sleepTime ≤ 2 * 30 := by
  unfold on_startup
  rw [startupFinish_loop]
  obtain ⟨h1, h2, h3⟩ := loopAux_bounds bt step max_retries 0 0 0 0 0 db0
  have hm : max_retries = 30 := rfl
  refine ⟨by omega, by omega, by omega⟩

/-- C9: the root handler returns the literal welcome payload whatever the
store state is, and its response does not depend on the store. -/
theorem read_root_constant :
    (∀ store : Option ExcClass, read_root store =
      [("message", "Welcome to the Knowledge Base API!"), ("status", "running")]) ∧
    (∀ s1 s2 : Option ExcClass, read_root s1 = read_root s2) :=
  ⟨fun _ => rfl, fun _ _ => rfl⟩

/-- C10: the declared schema marks `username` on `users` and `ragflow_kb_id`
on `knowledge_bases` as unique, and under the modelled store semantics an
insert carrying a value already present in either column is rejected. -/
theorem unique_constraints_reject_duplicates :
    (∃ col ∈ User.columns, col.name = "username" ∧ col.unique = true) ∧
    (∃ col ∈ KnowledgeBase.columns, col.name = "ragflow_kb_id" ∧ col.unique = true) ∧
    (∀ (rows : List Row) (r r0 : Row) (v : String), r0 ∈ rows →
      rowVal r0 "username" = some v → rowVal r "username" = some v →
      insertRow User rows r = none) ∧
    (∀ (rows : List Row) (r r0 : Row) (v : String), r0 ∈ rows →
      rowVal r0 "ragflow_kb_id" = some v → rowVal r "ragflow_kb_id" = some v →
      insertRow KnowledgeBase rows r = none) := by
  refine ⟨by decide, by decide, ?_, ?_⟩
  · intro rows r r0 v hr0 h0 h
    exact insertRow_none_of_dup User ⟨"username", false, true, true, false⟩
      (by decide) rfl rows r r0 v hr0 h0 h
  · intro rows r r0 v hr0 h0 h
    exact insertRow_none_of_dup KnowledgeBase ⟨"ragflow_kb_id", false, true, false, false⟩
      (by decide) rfl rows r r0 v hr0 h0 h

/-- Witness for C10: inserting a second row with a duplicated `username`,
respectively a duplicated `ragflow_kb_id`, is rejected. -/
theorem unique_constraints_reject_duplicates_witness :
    insertRow User [[("username", some "alice")]] [("username", some "alice")] = none ∧
    insertRow KnowledgeBase [[("ragflow_kb_id", some "kb1")]]
      [("ragflow_kb_id", some "kb1")] = none :=
  ⟨unique_constraints_reject_duplicates.2.2.1 [[("username", some "alice")]]
      [("username", some "alice")] [("username", some "alice")] "alice"
      (List.mem_singleton.mpr rfl) (by decide) (by decide),
    unique_constraints_reject_duplicates.2.2.2 [[("ragflow_kb_id", some "kb1")]]
      [("ragflow_kb_id", some "kb1")] [("ragflow_kb_id", some "kb1")] "kb1"
      (List.mem_singleton.mpr rfl) (by decide) (by decide)⟩
